import Mathlib

/-!
Formal model of the BASIC interpreter in `basic_interpreter.py`.

Python strings are modelled as `List Char`; Python `int` as `Int`; Python
`float` as the exact fraction type `PyFloat` (every value the interpreter
produces in the verified scenarios is exactly representable); Python
exceptions as the
`Except` monad carrying the exception's message text.  Each definition mirrors
the correspondingly named Python function; recursion in the source is modelled
with an explicit fuel parameter (Python's recursion limit), kept structural so
that the kernel can evaluate the model on concrete programs.
-/

/-- Python strings are modelled as lists of characters. -/
abbrev PyStr := List Char

/-- Characters treated as whitespace by the model of Python's `str.strip`,
`str.split`.  (Python also strips `\v`/`\f`; no interpreter input contains
them.) -/
def wsChar (c : Char) : Bool := c == ' ' || c == '\t' || c == '\n' || c == '\r'

/-- Model of `s.lstrip()`. -/
def lstrip (s : PyStr) : PyStr := s.dropWhile wsChar

/-- Model of `s.rstrip()`. -/
def rstrip (s : PyStr) : PyStr := (s.reverse.dropWhile wsChar).reverse

/-- Model of `s.strip()`. -/
def pyStrip (s : PyStr) : PyStr := rstrip (lstrip s)

/-- Model of `s.startswith(pre)`. -/
def listStarts : PyStr → PyStr → Bool
  | [], _ => true
  | _ :: _, [] => false
  | p :: ps, c :: cs => p == c && listStarts ps cs

/-- Model of Python's substring containment test `needle in haystack`. -/
def listContains (needle : PyStr) : PyStr → Bool
  | [] => listStarts needle []
  | c :: cs => listStarts needle (c :: cs) || listContains needle cs

/-- Model of `s.split(sep)` for a single-character separator (keeps empty
pieces, as Python does). -/
def pySplitChar (sep : Char) : PyStr → List PyStr
  | [] => [[]]
  | c :: cs =>
    if c == sep then [] :: pySplitChar sep cs
    else
      match pySplitChar sep cs with
      | [] => [[c]]
      | h :: t => (c :: h) :: t

/-- Model of `s.split(sep, 1)` for a single-character separator. -/
def pySplit1Char (sep : Char) : PyStr → List PyStr
  | [] => [[]]
  | c :: cs =>
    if c == sep then [[], cs]
    else
      match pySplit1Char sep cs with
      | [] => [[c]]
      | h :: t => (c :: h) :: t

/-- Model of `s.split(sep, 1)` for a multi-character separator. -/
def pySplit1Str (sep : PyStr) : PyStr → List PyStr
  | [] => [[]]
  | c :: cs =>
    if listStarts sep (c :: cs) then [[], (c :: cs).drop sep.length]
    else
      match pySplit1Str sep cs with
      | [] => [[c]]
      | h :: t => (c :: h) :: t

/-- Helper for `pySplitWs`: accumulates the current word in reverse. -/
def pySplitWsAux : PyStr → PyStr → List PyStr
  | [], cur => if cur.isEmpty then [] else [cur.reverse]
  | c :: cs, cur =>
    if wsChar c then
      if cur.isEmpty then pySplitWsAux cs []
      else cur.reverse :: pySplitWsAux cs []
    else pySplitWsAux cs (c :: cur)

/-- Model of `s.split()` (split on whitespace runs, dropping empty pieces). -/
def pySplitWs (s : PyStr) : List PyStr := pySplitWsAux s []

/-- Numeric value of a string of decimal digits. -/
def pyDigitsVal (ds : PyStr) : Nat := ds.foldl (fun a c => a * 10 + (c.toNat - '0'.toNat)) 0

/-- Core of the model of Python `int(s)` (decimal literals with an optional
sign, which is all the interpreter ever feeds it). -/
def pyParseIntCore : PyStr → Option Int
  | [] => none
  | c :: ds =>
    if c == '-' then
      if !ds.isEmpty && ds.all Char.isDigit then some (-(pyDigitsVal ds : Int)) else none
    else if c == '+' then
      if !ds.isEmpty && ds.all Char.isDigit then some (pyDigitsVal ds : Int) else none
    else if (c :: ds).all Char.isDigit then some (pyDigitsVal (c :: ds) : Int)
    else none

/-- Model of Python `int(s)` (which strips surrounding whitespace itself). -/
def pyParseInt (s : PyStr) : Option Int := pyParseIntCore (pyStrip s)

/-- Python floats are modelled as exact fractions `num / den` with `den > 0`
by construction, kept unnormalized so that every operation reduces in the
kernel.  Every float the interpreter produces in the verified scenarios is a
small exact decimal, so this model coincides with IEEE doubles there. -/
structure PyFloat where
  num : Int
  den : Int
deriving DecidableEq

/-- The float representing an integer. -/
def pfOfInt (n : Int) : PyFloat := ⟨n, 1⟩

/-- Exact float addition. -/
def pfAdd (a b : PyFloat) : PyFloat := ⟨a.num * b.den + b.num * a.den, a.den * b.den⟩

/-- Exact float subtraction. -/
def pfSub (a b : PyFloat) : PyFloat := ⟨a.num * b.den - b.num * a.den, a.den * b.den⟩

/-- Exact float multiplication. -/
def pfMul (a b : PyFloat) : PyFloat := ⟨a.num * b.num, a.den * b.den⟩

/-- Exact float division (the caller has ruled out a zero divisor); the sign
is moved into the numerator to keep the denominator positive. -/
def pfDiv (a b : PyFloat) : PyFloat :=
  if b.num < 0 then ⟨-(a.num * b.den), a.den * (-b.num)⟩ else ⟨a.num * b.den, a.den * b.num⟩

/-- Value comparison `<` (cross-multiplication; denominators positive). -/
def pfLt (a b : PyFloat) : Bool := a.num * b.den < b.num * a.den

/-- Value comparison `≤`. -/
def pfLe (a b : PyFloat) : Bool := a.num * b.den ≤ b.num * a.den

/-- Value equality of floats (cross-multiplication). -/
def pfEq (a b : PyFloat) : Bool := a.num * b.den == b.num * a.den

/-- Model of `float.is_integer`. -/
def pfIsInt (a : PyFloat) : Bool := a.num % a.den == 0

/-- Unsigned part of the model of Python `float(s)` for plain decimal
literals (`123`, `1.5`, `.5`, `2.`); exponent/infinity forms never occur in
the interpreter's inputs. -/
def parseUnsignedFloat (s : PyStr) : Option PyFloat :=
  let ip := s.takeWhile Char.isDigit
  match s.drop ip.length with
  | [] => if !ip.isEmpty then some (pfOfInt (pyDigitsVal ip : Int)) else none
  | '.' :: fp =>
    if fp.all Char.isDigit && (!ip.isEmpty || !fp.isEmpty) then
      some ⟨(pyDigitsVal ip : Int) * (10 ^ fp.length : Int) + (pyDigitsVal fp : Int),
        (10 ^ fp.length : Int)⟩
    else none
  | _ => none

/-- Model of Python `float(s)` on the decimal literals the interpreter can
feed it. -/
def pyParseFloat (s : PyStr) : Option PyFloat :=
  match pyStrip s with
  | '-' :: r => (parseUnsignedFloat r).map (fun q => ⟨-q.num, q.den⟩)
  | '+' :: r => parseUnsignedFloat r
  | r => parseUnsignedFloat r

/-- Decimal digit characters of a natural number (model of `str` on a
non-negative `int`). -/
def pyReprNat (n : Nat) : PyStr := Nat.toDigits 10 n

/-- Model of Python `str(n)` for an `int` value `n`. -/
def pyReprInt (n : Int) : PyStr :=
  if n < 0 then '-' :: pyReprNat (-n).toNat else pyReprNat n.toNat

/-- Fractional decimal digits of `rem / d` (with `0 ≤ rem < d`), up to `fuel`
places (model of the decimal rendering of a float's fractional part; every
float printed in the verified scenarios has a short exact decimal form). -/
def fracDigitsNat : Nat → Nat → Nat → PyStr
  | 0, _, _ => []
  | f + 1, rem, d =>
    if rem == 0 then []
    else Char.ofNat ('0'.toNat + rem * 10 / d) :: fracDigitsNat f (rem * 10 % d) d

/-- Model of Python `str(x)` for a `float` value `x`. -/
def pyReprFloat (q : PyFloat) : PyStr :=
  let sign : PyStr := if q.num < 0 then ['-'] else []
  let n := q.num.natAbs
  let d := q.den.toNat
  let ds := fracDigitsNat 17 (n % d) d
  sign ++ pyReprNat (n / d) ++ '.' :: (if ds.isEmpty then ['0'] else ds)

/-- Runtime values: Python `int`, `float` (modelled exactly as `PyFloat`) and
`str`. -/
inductive Value where
  | vint (n : Int)
  | vfloat (q : PyFloat)
  | vstr (s : PyStr)
deriving DecidableEq

/-- Message used for Python `TypeError`s on mixed-type operands (exact CPython
wording abbreviated; no claim inspects it). -/
def typeErrMsg : PyStr := "TypeError".toList

/-- Message produced when the model runs out of fuel (Python
`RecursionError`; unreachable at the fuel values used in the theorems). -/
def recLimitMsg : PyStr := "maximum recursion depth exceeded".toList

/-- Model of Python `+` on interpreter values. -/
def pyAdd : Value → Value → Except PyStr Value
  | .vint a, .vint b => .ok (.vint (a + b))
  | .vint a, .vfloat b => .ok (.vfloat (pfAdd (pfOfInt a) b))
  | .vfloat a, .vint b => .ok (.vfloat (pfAdd a (pfOfInt b)))
  | .vfloat a, .vfloat b => .ok (.vfloat (pfAdd a b))
  | .vstr a, .vstr b => .ok (.vstr (a ++ b))
  | _, _ => .error typeErrMsg

/-- Model of Python `-` on interpreter values. -/
def pySub : Value → Value → Except PyStr Value
  | .vint a, .vint b => .ok (.vint (a - b))
  | .vint a, .vfloat b => .ok (.vfloat (pfSub (pfOfInt a) b))
  | .vfloat a, .vint b => .ok (.vfloat (pfSub a (pfOfInt b)))
  | .vfloat a, .vfloat b => .ok (.vfloat (pfSub a b))
  | _, _ => .error typeErrMsg

/-- Model of Python string repetition `s * n`. -/
def strRepeat (n : Int) (s : PyStr) : PyStr := (List.replicate n.toNat s).flatten

/-- Model of Python `*` on interpreter values. -/
def pyMul : Value → Value → Except PyStr Value
  | .vint a, .vint b => .ok (.vint (a * b))
  | .vint a, .vfloat b => .ok (.vfloat (pfMul (pfOfInt a) b))
  | .vfloat a, .vint b => .ok (.vfloat (pfMul a (pfOfInt b)))
  | .vfloat a, .vfloat b => .ok (.vfloat (pfMul a b))
  | .vstr s, .vint n => .ok (.vstr (strRepeat n s))
  | .vint n, .vstr s => .ok (.vstr (strRepeat n s))
  | _, _ => .error typeErrMsg

/-- Model of Python true division `/` on interpreter values (always produces
a `float`; the caller has already ruled out a zero divisor). -/
def pyDiv : Value → Value → Except PyStr Value
  | .vint a, .vint b => .ok (.vfloat (pfDiv (pfOfInt a) (pfOfInt b)))
  | .vint a, .vfloat b => .ok (.vfloat (pfDiv (pfOfInt a) b))
  | .vfloat a, .vint b => .ok (.vfloat (pfDiv a (pfOfInt b)))
  | .vfloat a, .vfloat b => .ok (.vfloat (pfDiv a b))
  | _, _ => .error typeErrMsg

/-- Model of Python `x == 0` as used by the division-by-zero guard. -/
def pyEqZero : Value → Bool
  | .vint n => n == 0
  | .vfloat q => q.num == 0
  | .vstr _ => false

/-- Lexicographic `<` on Python strings. -/
def strLtB : PyStr → PyStr → Bool
  | [], [] => false
  | [], _ :: _ => true
  | _ :: _, [] => false
  | a :: as, b :: bs => if a.toNat < b.toNat then true else if a == b then strLtB as bs else false

/-- Model of Python `<` on interpreter values. -/
def pyLt : Value → Value → Except PyStr Bool
  | .vint a, .vint b => .ok (decide (a < b))
  | .vint a, .vfloat b => .ok (pfLt (pfOfInt a) b)
  | .vfloat a, .vint b => .ok (pfLt a (pfOfInt b))
  | .vfloat a, .vfloat b => .ok (pfLt a b)
  | .vstr a, .vstr b => .ok (strLtB a b)
  | _, _ => .error typeErrMsg

/-- Model of Python `>` on interpreter values. -/
def pyGt : Value → Value → Except PyStr Bool
  | .vint a, .vint b => .ok (decide (b < a))
  | .vint a, .vfloat b => .ok (pfLt b (pfOfInt a))
  | .vfloat a, .vint b => .ok (pfLt (pfOfInt b) a)
  | .vfloat a, .vfloat b => .ok (pfLt b a)
  | .vstr a, .vstr b => .ok (strLtB b a)
  | _, _ => .error typeErrMsg

/-- Model of Python `<=` on interpreter values. -/
def pyLe : Value → Value → Except PyStr Bool
  | .vint a, .vint b => .ok (decide (a ≤ b))
  | .vint a, .vfloat b => .ok (pfLe (pfOfInt a) b)
  | .vfloat a, .vint b => .ok (pfLe a (pfOfInt b))
  | .vfloat a, .vfloat b => .ok (pfLe a b)
  | .vstr a, .vstr b => .ok (!strLtB b a)
  | _, _ => .error typeErrMsg

/-- Model of Python `>=` on interpreter values. -/
def pyGe : Value → Value → Except PyStr Bool
  | .vint a, .vint b => .ok (decide (b ≤ a))
  | .vint a, .vfloat b => .ok (pfLe b (pfOfInt a))
  | .vfloat a, .vint b => .ok (pfLe (pfOfInt b) a)
  | .vfloat a, .vfloat b => .ok (pfLe b a)
  | .vstr a, .vstr b => .ok (!strLtB a b)
  | _, _ => .error typeErrMsg

/-- Model of Python `==` on interpreter values (mixed number/string compares
unequal without error, as in Python). -/
def pyEqB : Value → Value → Bool
  | .vint a, .vint b => a == b
  | .vint a, .vfloat b => pfEq (pfOfInt a) b
  | .vfloat a, .vint b => pfEq a (pfOfInt b)
  | .vfloat a, .vfloat b => pfEq a b
  | .vstr a, .vstr b => a == b
  | _, _ => false

/-- First-match lookup in the variable environment (Python dict read). -/
def lookupVar (k : PyStr) : List (PyStr × Value) → Option Value
  | [] => none
  | (k', v) :: rest => if k' == k then some v else lookupVar k rest

/-- Update-or-append in the variable environment (Python dict write). -/
def setVar (k : PyStr) (v : Value) : List (PyStr × Value) → List (PyStr × Value)
  | [] => [(k, v)]
  | (k', v') :: rest => if k' == k then (k', v) :: rest else (k', v') :: setVar k v rest

/-- Model of `self.program[line]` (Python dict read on the program store). -/
def dictGet (k : Int) : List (Int × PyStr) → Option PyStr
  | [] => none
  | (k', v) :: rest => if k' == k then some v else dictGet k rest

/-- Model of `self.program[line] = stmt` (Python dict write; a later
definition replaces an earlier one). -/
def dictSet (k : Int) (v : PyStr) : List (Int × PyStr) → List (Int × PyStr)
  | [] => [(k, v)]
  | (k', v') :: rest => if k' == k then (k', v) :: rest else (k', v') :: dictSet k v rest

/-- Model of `list.index(x)` for the (guarded-present) line-number list. -/
def idxOfInt (t : Int) : List Int → Nat
  | [] => 0
  | x :: xs => if x == t then 0 else idxOfInt t xs + 1

/-- First index of a character (model of `str.find` on a string known to
contain it). -/
def pyFind (c : Char) : PyStr → Nat
  | [] => 0
  | x :: xs => if x == c then 0 else pyFind c xs + 1

/-- Python list indexing `l[i]`, including negative-index wraparound. -/
def pyListIndex (l : List Int) (i : Int) : Option Int :=
  if 0 ≤ i then l.get? i.toNat
  else if (-i).toNat ≤ l.length then l.get? (l.length - (-i).toNat) else none

/-- Whether the trimmed expression is a quoted string literal
(`expr.startswith('"') and expr.endswith('"')`). -/
def isQuoted (s : PyStr) : Bool :=
  match s with
  | [] => false
  | c :: _ => c == '"' && (s.getLast? == some '"')

/-- Model of `expr[1:-1]`. -/
def stripQuotes (s : PyStr) : PyStr := (s.drop 1).dropLast

/-- Model of the literal-number resolution in `_evaluate_expression` /
`_evaluate_arithmetic`: `float(expr)` when the text contains a radix point,
else `int(expr)`, with `ValueError` mapped to `none`. -/
def pyNum (expr : PyStr) : Option Value :=
  if expr.contains '.' then (pyParseFloat expr).map Value.vfloat
  else (pyParseInt expr).map Value.vint

/-- Whether `expr[i]` is `+` or `-`. -/
def addOpAt (expr : PyStr) (i : Nat) : Bool :=
  match expr.get? i with
  | some c => c == '+' || c == '-'
  | none => false

/-- The characters before which a `+`/`-` counts as unary in
`_evaluate_arithmetic`. -/
def unaryContext : List Char := ['*', '/', '+', '-', '(', '=', '<', '>']

/-- Whether the additive scan of `_evaluate_arithmetic` may split at
position `i` (callers ensure `i ≥ 1`, mirroring the `i > 0` guard). -/
def addSplitAt (expr : PyStr) (i : Nat) : Bool :=
  addOpAt expr i &&
    (match expr.get? (i - 1) with
     | some p => !unaryContext.contains p
     | none => false)

/-- Right-to-left scan for the additive split position (`for i in
range(len(expr)-1, -1, -1)` with the `i > 0` and unary-context guards). -/
def findAddAux (expr : PyStr) : Nat → Option Nat
  | 0 => none
  | j + 1 => if addSplitAt expr (j + 1) then some (j + 1) else findAddAux expr j

/-- Position of the additive split in `_evaluate_arithmetic`, if any. -/
def findAdd (expr : PyStr) : Option Nat :=
  match expr.length with
  | 0 => none
  | n + 1 => findAddAux expr n

/-- Whether `expr[i]` is `*` or `/`. -/
def mulOpAt (expr : PyStr) (i : Nat) : Bool :=
  match expr.get? i with
  | some c => c == '*' || c == '/'
  | none => false

/-- Right-to-left scan for the multiplicative split position. -/
def findMulAux (expr : PyStr) : Nat → Option Nat
  | 0 => if mulOpAt expr 0 then some 0 else none
  | j + 1 => if mulOpAt expr (j + 1) then some (j + 1) else findMulAux expr j

/-- Position of the multiplicative split in `_evaluate_arithmetic`, if any. -/
def findMul (expr : PyStr) : Option Nat :=
  match expr.length with
  | 0 => none
  | n + 1 => findMulAux expr n

/-- The parenthesis-matching scan of `_evaluate_arithmetic`: processes
characters after the opening `(` while the nesting count is positive,
returning the final count and the number of characters consumed. -/
def scanParen : PyStr → Nat → Nat → Nat × Nat
  | [], count, consumed => (count, consumed)
  | c :: cs, count, consumed =>
    if count == 0 then (count, consumed)
    else scanParen cs (if c == '(' then count + 1 else if c == ')' then count - 1 else count)
      (consumed + 1)

/-- Model of Python `str(value)` as used by the textual substitution step. -/
def pyStrValue : Value → PyStr
  | .vint n => pyReprInt n
  | .vfloat q => pyReprFloat q
  | .vstr s => s

/-- Body of `_evaluate_arithmetic`, with the recursive calls to
`_evaluate_expression` abstracted as `recur`. -/
def arith_body (vars : List (PyStr × Value)) (recur : PyStr → Except PyStr Value)
    (e : PyStr) : Except PyStr Value :=
  let expr := pyStrip e
  match findAdd expr with
  | some i =>
    match recur (expr.take i) with
    | .error msg => .error msg
    | .ok left =>
      match recur (expr.drop (i + 1)) with
      | .error msg => .error msg
      | .ok right =>
        if expr.get? i == some '+' then pyAdd left right else pySub left right
  | none =>
    match findMul expr with
    | some i =>
      match recur (expr.take i) with
      | .error msg => .error msg
      | .ok left =>
        match recur (expr.drop (i + 1)) with
        | .error msg => .error msg
        | .ok right =>
          if expr.get? i == some '*' then pyMul left right
          else if pyEqZero right then .error ("Division by zero".toList)
          else pyDiv left right
    | none =>
      let parenStep : Option (Except PyStr Value) :=
        if expr.contains '(' && expr.contains ')' then
          let start := pyFind '(' expr
          let scanned := scanParen (expr.drop (start + 1)) 1 0
          if scanned.1 == 0 then
            match recur ((expr.drop (start + 1)).take (scanned.2 - 1)) with
            | .error msg => some (.error msg)
            | .ok result =>
              let newExpr := expr.take start ++ pyStrValue result ++ expr.drop (start + 1 + scanned.2)
              if newExpr != expr then some (recur newExpr) else none
          else none
        else none
      match parenStep with
      | some r => r
      | none =>
        match lookupVar expr vars with
        | some v => .ok v
        | none =>
          match pyNum expr with
          | some v => .ok v
          | none => .error ("Cannot evaluate expression: ".toList ++ expr)

/-- Model of `_evaluate_expression`; the fuel bounds the recursion depth. -/
def evaluate_expression (env : List (PyStr × Value)) : Nat → PyStr → Except PyStr Value
  | 0, _ => .error recLimitMsg
  | f + 1, e =>
    let expr := pyStrip e
    if isQuoted expr then .ok (.vstr (stripQuotes expr))
    else
      match lookupVar expr env with
      | some v => .ok v
      | none =>
        match pyNum expr with
        | some v => .ok v
        | none => arith_body env (evaluate_expression env f) expr

/-- Model of `_evaluate_arithmetic`. -/
def evaluate_arithmetic (env : List (PyStr × Value)) (f : Nat) (e : PyStr) :
    Except PyStr Value :=
  arith_body env (evaluate_expression env f) e

/-- One iteration of the operator loop of `_evaluate_condition`: if `op`
occurs in the condition, split at its first occurrence and compare; `none`
means the loop falls through to the next operator. -/
def cond_try_op (env : List (PyStr × Value)) (f : Nat) (condition : PyStr) (op : Char)
    (cmp : Value → Value → Except PyStr Bool) : Option (Except PyStr Bool) :=
  if condition.contains op then
    match pySplit1Char op condition with
    | [a, b] =>
      some (match evaluate_expression env f a with
        | .error msg => .error msg
        | .ok l =>
          match evaluate_expression env f b with
          | .error msg => .error msg
          | .ok r => cmp l r)
    | _ => none
  else none

/-- Model of `_evaluate_condition`: the operators are tried in the fixed
order `>`, `<`, `=`; with no operator present the condition is false. -/
def evaluate_condition (env : List (PyStr × Value)) (f : Nat) (cond0 : PyStr) :
    Except PyStr Bool :=
  let condition := pyStrip cond0
  match cond_try_op env f condition '>' pyGt with
  | some r => r
  | none =>
    match cond_try_op env f condition '<' pyLt with
    | some r => r
    | none =>
      match cond_try_op env f condition '=' (fun a b => .ok (pyEqB a b)) with
      | some r => r
      | none => .ok false

/-- Helper for `parse_print_parts`: the quote-aware scan with the current
piece and quoting flag. -/
def parse_print_parts_aux : PyStr → PyStr → Bool → List PyStr → List PyStr
  | [], current, _, parts =>
    if (pyStrip current).isEmpty then parts else parts ++ [pyStrip current]
  | c :: rest, current, in_quotes, parts =>
    if c == '"' then parse_print_parts_aux rest (current ++ ['"']) (!in_quotes) parts
    else if c == ';' && !in_quotes then
      if (pyStrip current).isEmpty then parse_print_parts_aux rest [] in_quotes parts
      else parse_print_parts_aux rest [] in_quotes (parts ++ [pyStrip current])
    else parse_print_parts_aux rest (current ++ [c]) in_quotes parts

/-- Model of `_parse_print_parts`. -/
def parse_print_parts (expr : PyStr) : List PyStr := parse_print_parts_aux expr [] false []

/-- The rendering applied to each evaluated PRINT argument: a `float` with
zero fractional part becomes an `int` before `str` is applied. -/
def pyPrintValue : Value → PyStr
  | .vfloat q => if pfIsInt q then pyReprInt (q.num / q.den) else pyReprFloat q
  | .vint n => pyReprInt n
  | .vstr s => s

/-- Decidable equality for `Except` results (needed to state and decide
concrete execution equations). -/
instance {ε α : Type} [DecidableEq ε] [DecidableEq α] : DecidableEq (Except ε α) := fun a b =>
  match a, b with
  | .error e, .error e' =>
    if h : e = e' then .isTrue (by rw [h]) else .isFalse (by simp [h])
  | .ok x, .ok y =>
    if h : x = y then .isTrue (by rw [h]) else .isFalse (by simp [h])
  | .error _, .ok _ => .isFalse (by simp)
  | .ok _, .error _ => .isFalse (by simp)

/-- A loop frame pushed by `_execute_for` (`var`, `end`, `step`, `line`;
`end` is spelled `endv` because `end` is reserved in Lean). -/
structure LoopFrame where
  var : PyStr
  endv : Value
  step : Value
  line : Int
deriving DecidableEq

/-- The interpreter's mutable state.  `stdin` models the host environment's
pending input lines (consumed by INPUT); emitted output is returned by the
execution functions rather than stored, mirroring Python's `print` writing to
the host's stdout. -/
structure InterpState where
  program : List (Int × PyStr)
  vars : List (PyStr × Value)
  program_counter : Int
  line_numbers : List Int
  for_stack : List LoopFrame
  return_stack : List Int
  stdin : List PyStr
deriving DecidableEq

/-- The state built by `BasicInterpreter.__init__`. -/
def initState : InterpState where
  program := []
  vars := []
  program_counter := 0
  line_numbers := []
  for_stack := []
  return_stack := []
  stdin := []

/-- Result of executing one statement: the mutated state, the lines printed,
and either the continue/stop flag or the raised exception's message. -/
structure StepResult where
  st : InterpState
  out : List PyStr
  res : Except PyStr Bool
deriving DecidableEq

/-- Processing of one physical program line inside `load_program`'s loop. -/
def parseLine (prog : List (Int × PyStr)) (line : PyStr) : List (Int × PyStr) :=
  let l := pyStrip line
  if l.isEmpty then prog
  else
    match pySplit1Char ' ' l with
    | [a, b] =>
      match pyParseInt a with
      | some n => dictSet n b prog
      | none => prog
    | _ => prog

/-- The program dictionary built by `load_program` from the program text. -/
def parseProgram (text : PyStr) : List (Int × PyStr) :=
  (pySplitChar '\n' (pyStrip text)).foldl parseLine []

/-- Model of `load_program`: replaces the program, clears the variable
environment and both control stacks, and rebuilds the sorted line-number
sequence.  (`program_counter` is not touched, as in the source.) -/
def load_program (st : InterpState) (text : PyStr) : InterpState :=
  let prog := parseProgram text
  { st with
    program := prog
    vars := []
    for_stack := []
    return_stack := []
    line_numbers := List.insertionSort (· ≤ ·) (prog.map Prod.fst) }

/-- Model of `_execute_print`.  The `fuel` feeds the expression evaluator. -/
def print_parts_values (env : List (PyStr × Value)) (f : Nat) :
    List PyStr → Except PyStr (List PyStr)
  | [] => .ok []
  | p :: ps =>
    let part := pyStrip p
    if part == [';'] then print_parts_values env f ps
    else if isQuoted part then
      match print_parts_values env f ps with
      | .error msg => .error msg
      | .ok rest => .ok (stripQuotes part :: rest)
    else
      match evaluate_expression env f part with
      | .error msg =>
        .error ("Error evaluating expression '".toList ++ part ++ "': ".toList ++ msg)
      | .ok result =>
        match print_parts_values env f ps with
        | .error msg => .error msg
        | .ok rest => .ok (pyPrintValue result :: rest)

/-- Model of `' '.join(parts)`. -/
def joinSpace (parts : List PyStr) : PyStr := List.intercalate [' '] parts

/-- Model of `_execute_print`. -/
def execute_print (f : Nat) (st : InterpState) (statement : PyStr) : StepResult :=
  let expr := pyStrip (statement.drop 5)
  if expr.isEmpty then ⟨st, [[]], .ok true⟩
  else
    match print_parts_values st.vars f (parse_print_parts expr) with
    | .error msg => ⟨st, [], .error msg⟩
    | .ok outputParts => ⟨st, [joinSpace outputParts], .ok true⟩

/-- Model of `_execute_let`. -/
def execute_let (f : Nat) (st : InterpState) (statement : PyStr) : StepResult :=
  match pySplit1Char '=' (pyStrip (statement.drop 3)) with
  | [a, b] =>
    match evaluate_expression st.vars f (pyStrip b) with
    | .error msg => ⟨st, [], .error msg⟩
    | .ok v => ⟨{ st with vars := setVar (pyStrip a) v st.vars }, [], .ok true⟩
  | _ => ⟨st, [], .error ("Invalid LET syntax".toList)⟩

/-- Model of `_execute_goto`. -/
def execute_goto (st : InterpState) (statement : PyStr) : StepResult :=
  match pyParseInt (pyStrip (statement.drop 4)) with
  | none => ⟨st, [], .error ("Invalid GOTO syntax".toList)⟩
  | some target =>
    if st.line_numbers.contains target then
      ⟨{ st with program_counter := (idxOfInt target st.line_numbers : Int) - 1 }, [], .ok true⟩
    else
      ⟨st, [], .error ("Undefined line number ".toList ++ pyReprInt target ++
        " in GOTO statement".toList)⟩

/-- Model of `_execute_if`; `recur` is the recursive dispatch of the
consequent (whose stop flag is discarded, as in the source). -/
def execute_if (recur : InterpState → PyStr → StepResult) (f : Nat) (st : InterpState)
    (statement : PyStr) : StepResult :=
  match pySplit1Str (" THEN ".toList) (pyStrip (statement.drop 2)) with
  | [c, t] =>
    match evaluate_condition st.vars f (pyStrip c) with
    | .error msg => ⟨st, [], .error msg⟩
    | .ok false => ⟨st, [], .ok true⟩
    | .ok true =>
      let r := recur st (pyStrip t)
      match r.res with
      | .error msg => ⟨r.st, r.out, .error msg⟩
      | .ok _ => ⟨r.st, r.out, .ok true⟩
  | _ => ⟨st, [], .error ("Invalid IF syntax".toList)⟩

/-- Model of `_execute_for` (including its token indexing, which assumes the
`FOR` keyword is still among the split tokens although it was sliced off). -/
def execute_for (f : Nat) (st : InterpState) (statement : PyStr) : StepResult :=
  let parts := pySplitWs (pyStrip (statement.drop 3))
  if parts.length < 5 ∨ parts.getD 2 [] ≠ "=".toList ∨ parts.getD 4 [] ≠ "TO".toList then
    ⟨st, [], .error ("Invalid FOR syntax".toList)⟩
  else
    match evaluate_expression st.vars f (parts.getD 3 []) with
    | .error msg => ⟨st, [], .error msg⟩
    | .ok startVal =>
      match parts.get? 5 with
      | none => ⟨st, [], .error ("list index out of range".toList)⟩
      | some endExpr =>
        match evaluate_expression st.vars f endExpr with
        | .error msg => ⟨st, [], .error msg⟩
        | .ok endVal =>
          match
            (if 8 ≤ parts.length ∧ parts.getD 6 [] = "STEP".toList then
              evaluate_expression st.vars f (parts.getD 7 [])
            else .ok (.vint 1)) with
          | .error msg => ⟨st, [], .error msg⟩
          | .ok stepVal =>
            match pyListIndex st.line_numbers st.program_counter with
            | none =>
              ⟨{ st with vars := setVar (parts.getD 1 []) startVal st.vars }, [],
                .error ("IndexError".toList)⟩
            | some currentLine =>
              ⟨{ st with
                  vars := setVar (parts.getD 1 []) startVal st.vars
                  for_stack := ⟨parts.getD 1 [], endVal, stepVal, currentLine⟩ :: st.for_stack },
                [], .ok true⟩

/-- Second disjunct of the loop-continuation test (`step < 0 and new >=
end`), with Python's evaluation order. -/
def loopContinueNeg (frame : LoopFrame) (newVal : Value) : Except PyStr Bool :=
  match pyLt frame.step (.vint 0) with
  | .error msg => .error msg
  | .ok false => .ok false
  | .ok true => pyGe newVal frame.endv

/-- The loop-continuation test of `_execute_next`: `(step > 0 and new <= end)
or (step < 0 and new >= end)`, with Python's short-circuit order. -/
def loopContinue (frame : LoopFrame) (newVal : Value) : Except PyStr Bool :=
  match pyGt frame.step (.vint 0) with
  | .error msg => .error msg
  | .ok false => loopContinueNeg frame newVal
  | .ok true =>
    match pyLe newVal frame.endv with
    | .error msg => .error msg
    | .ok true => .ok true
    | .ok false => loopContinueNeg frame newVal

/-- Model of `_execute_next`. -/
def execute_next (st : InterpState) (statement : PyStr) : StepResult :=
  match st.for_stack with
  | [] => ⟨st, [], .error ("NEXT without FOR".toList)⟩
  | frame :: rest =>
    let varName : PyStr := if 4 < statement.length then pyStrip (statement.drop 4) else []
    if varName ≠ [] ∧ varName ≠ frame.var then
      ⟨st, [], .error ("NEXT ".toList ++ varName ++ " doesn't match FOR ".toList ++ frame.var)⟩
    else
      match lookupVar frame.var st.vars with
      | none => ⟨st, [], .error (Char.ofNat 39 :: frame.var ++ [Char.ofNat 39])⟩
      | some current =>
        match pyAdd current frame.step with
        | .error msg => ⟨st, [], .error msg⟩
        | .ok newVal =>
          let st1 := { st with vars := setVar frame.var newVal st.vars }
          match loopContinue frame newVal with
          | .error msg => ⟨st1, [], .error msg⟩
          | .ok true =>
            if st.line_numbers.contains frame.line then
              ⟨{ st1 with program_counter := (idxOfInt frame.line st.line_numbers : Int) }, [],
                .ok true⟩
            else ⟨st1, [], .error ("is not in list".toList)⟩
          | .ok false => ⟨{ st1 with for_stack := rest }, [], .ok true⟩

/-- Conversion applied to an INPUT line: fractional number if it contains a
radix point, else integer, else kept as text. -/
def pyInputConvert (value : PyStr) : Value :=
  if value.contains '.' then
    match pyParseFloat value with
    | some q => .vfloat q
    | none => .vstr value
  else
    match pyParseInt value with
    | some n => .vint n
    | none => .vstr value

/-- Model of `_execute_input`; the prompt (when present) is displayed by the
host input collaborator and is not part of the engine's emitted output. -/
def execute_input (st : InterpState) (statement : PyStr) : StepResult :=
  let expr := pyStrip (statement.drop 5)
  let varName :=
    if expr.contains ';' then
      match pySplit1Char ';' expr with
      | [_, b] => pyStrip b
      | _ => expr
    else expr
  match st.stdin with
  | [] => ⟨st, [], .error ("EOFError".toList)⟩
  | v :: rest =>
    ⟨{ st with vars := setVar varName (pyInputConvert v) st.vars, stdin := rest },
      [], .ok true⟩

/-- Model of `_execute_statement`: classify by leading keyword and dispatch. -/
def execute_statement : Nat → InterpState → PyStr → StepResult
  | 0, st, _ => ⟨st, [], .error recLimitMsg⟩
  | f + 1, st, stmt0 =>
    let statement := pyStrip stmt0
    if listStarts ("PRINT".toList) statement then execute_print f st statement
    else if listStarts ("LET".toList) statement then execute_let f st statement
    else if listStarts ("GOTO".toList) statement then execute_goto st statement
    else if listStarts ("IF".toList) statement then execute_if (execute_statement f) f st statement
    else if listStarts ("FOR".toList) statement then execute_for f st statement
    else if listStarts ("NEXT".toList) statement then execute_next st statement
    else if listStarts ("INPUT".toList) statement then execute_input st statement
    else if listStarts ("REM".toList) statement then ⟨st, [], .ok true⟩
    else if listStarts ("END".toList) statement then ⟨st, [], .ok false⟩
    else
      ⟨st, [], .error ("Syntax error: Unknown command '".toList ++ statement ++ [Char.ofNat 39])⟩

/-- Result of a whole run: final state, all emitted lines, and the raised
exception's message if the run aborted. -/
structure RunResult where
  st : InterpState
  out : List PyStr
  err : Option PyStr
deriving DecidableEq

/-- The `while` loop of `execute`: run statements until the counter leaves
the line list, an END is hit, or an error is re-raised tagged with the
current line number. -/
def run_loop : Nat → InterpState → RunResult
  | 0, st => ⟨st, [], some recLimitMsg⟩
  | f + 1, st =>
    if st.program_counter < (st.line_numbers.length : Int) then
      match pyListIndex st.line_numbers st.program_counter with
      | none => ⟨st, [], some ("IndexError".toList)⟩
      | some lineNum =>
        match dictGet lineNum st.program with
        | none => ⟨st, [], some ("KeyError".toList)⟩
        | some statement =>
          match execute_statement f st statement with
          | ⟨st1, out1, .ok true⟩ =>
            let r := run_loop f { st1 with program_counter := st1.program_counter + 1 }
            ⟨r.st, out1 ++ r.out, r.err⟩
          | ⟨st1, out1, .ok false⟩ => ⟨st1, out1, none⟩
          | ⟨st1, out1, .error msg⟩ =>
            ⟨st1, out1, some ("Error at line ".toList ++ pyReprInt lineNum ++ ": ".toList ++ msg)⟩
    else ⟨st, [], none⟩

/-- Model of `execute`. -/
def execute (f : Nat) (st : InterpState) : RunResult :=
  if st.program.isEmpty then ⟨st, [], none⟩
  else run_loop f { st with program_counter := 0 }

/-- Model of `run`: load the program text, then execute it. -/
def run (f : Nat) (st : InterpState) (text : PyStr) : RunResult :=
  execute f (load_program st text)

/-- Comparison of the two sub-expressions obtained by splitting a condition
at position `i` holding operator `op` (shared by the two specification-level
condition readings below). -/
def specCompareAt (env : List (PyStr × Value)) (f : Nat) (condition : PyStr) (i : Nat)
    (op : Char) : Except PyStr Bool :=
  match evaluate_expression env f (condition.take i) with
  | .error msg => .error msg
  | .ok l =>
    match evaluate_expression env f (condition.drop (i + 1)) with
    | .error msg => .error msg
    | .ok r =>
      if op == '>' then pyGt l r
      else if op == '<' then pyLt l r
      else .ok (pyEqB l r)

/-- Written from the claim's words (C5): the condition is split at the first
occurrence, scanning left to right, of any of the operators `>`, `<`, `=`,
whichever operator that happens to be. -/
def specCondLeftmost (env : List (PyStr × Value)) (f : Nat) (cond0 : PyStr) :
    Except PyStr Bool :=
  let condition := pyStrip cond0
  if condition.any (fun c => c == '>' || c == '<' || c == '=') then
    let i := condition.findIdx (fun c => c == '>' || c == '<' || c == '=')
    specCompareAt env f condition i (condition.getD i ' ')
  else .ok false

/-- Written from the amended claim (C5): the operators are tried in the
fixed order `>`, `<`, `=`, and the first operator present in the condition
splits it at that operator's first occurrence. -/
def specCondPriority (env : List (PyStr × Value)) (f : Nat) (cond0 : PyStr) :
    Except PyStr Bool :=
  let condition := pyStrip cond0
  if condition.contains '>' then
    specCompareAt env f condition (condition.findIdx (fun c => c == '>')) '>'
  else if condition.contains '<' then
    specCompareAt env f condition (condition.findIdx (fun c => c == '<')) '<'
  else if condition.contains '=' then
    specCompareAt env f condition (condition.findIdx (fun c => c == '=')) '='
  else .ok false

/-! ### Helper lemmas about the string primitives -/

theorem dropWhile_eq_self_of_head {α : Type} {p : α → Bool} {l : List α}
    (h : ∀ c, l.head? = some c → p c = false) : l.dropWhile p = l := by
  cases l with
  | nil => rfl
  | cons c cs =>
    have hc := h c rfl
    simp [List.dropWhile_cons, hc]

theorem lstrip_eq_self {l : PyStr} (h : ∀ c, l.head? = some c → wsChar c = false) :
    lstrip l = l := dropWhile_eq_self_of_head h

theorem rstrip_eq_self {l : PyStr} (h : ∀ c, l.getLast? = some c → wsChar c = false) :
    rstrip l = l := by
  unfold rstrip
  rw [dropWhile_eq_self_of_head, List.reverse_reverse]
  intro c hc
  exact h c (by rwa [List.head?_reverse] at hc)

theorem pyStrip_eq_self {l : PyStr} (h1 : ∀ c, l.head? = some c → wsChar c = false)
    (h2 : ∀ c, l.getLast? = some c → wsChar c = false) : pyStrip l = l := by
  unfold pyStrip
  rw [lstrip_eq_self h1, rstrip_eq_self h2]

theorem lookupVar_setVar_self (k : PyStr) (v : Value) (env : List (PyStr × Value)) :
    lookupVar k (setVar k v env) = some v := by
  induction env with
  | nil => simp [setVar, lookupVar]
  | cons p rest ih =>
    obtain ⟨k', v'⟩ := p
    by_cases h : k' == k
    · simp [setVar, lookupVar, h]
    · simp only [setVar, h]
      simp only [Bool.false_eq_true, if_false]
      simpa [lookupVar, h] using ih

/-! ### Claim theorems -/

/-- C1, code evaluated at the claim's inputs: precedence does hold for
`2 + 3 * 4` (it evaluates to 14), but the parenthesized `(2 + 3) * 4` does
not evaluate to 20 — the right-to-left additive scan of
`_evaluate_arithmetic` ignores parentheses, splits at the `+` inside them,
and the left piece `(2` is unevaluable, so the whole evaluation raises
`Cannot evaluate expression: (2`. -/
theorem claim_c1_paren_evaluation :
    evaluate_expression [] 30 ("2 + 3 * 4".toList) = .ok (.vint 14) ∧
    evaluate_expression [] 30 ("(2 + 3) * 4".toList) =
      .error ("Cannot evaluate expression: (2".toList) :=
  ⟨by decide, by decide⟩

/-- C2: loading sorts the line numbers ascending, and executing the program
whose lines 30, 10, 20 print Third, First, Second emits First, Second, Third
in that order without error. -/
theorem claim_c2_ascending_line_order :
    ((run 60 initState
        ("30 PRINT \"Third\"\n10 PRINT \"First\"\n20 PRINT \"Second\"".toList)).out =
      ["First".toList, "Second".toList, "Third".toList] ∧
     (run 60 initState
        ("30 PRINT \"Third\"\n10 PRINT \"First\"\n20 PRINT \"Second\"".toList)).err = none) ∧
    ∀ (st : InterpState) (text : PyStr),
      List.Sorted (· ≤ ·) (load_program st text).line_numbers :=
  ⟨⟨by decide, by decide⟩, fun _ _ => List.sorted_insertionSort _ _⟩

/-- C4, code evaluated at the claim's scenario: the counting loop
`FOR I = 1 TO 3` never iterates at all — `_execute_for` splits
`statement[3:]` into tokens but indexes them as if the `FOR` keyword were
still present, so the standard syntax fails its shape check and the run
aborts with `Invalid FOR syntax`, printing nothing. -/
theorem claim_c4_for_loop_rejected :
    (run 60 initState ("10 FOR I = 1 TO 3\n20 PRINT I\n30 NEXT I".toList)).out = [] ∧
    (run 60 initState ("10 FOR I = 1 TO 3\n20 PRINT I\n30 NEXT I".toList)).err =
      some ("Error at line 10: Invalid FOR syntax".toList) :=
  ⟨by decide, by decide⟩

/-- C8: a float whose fractional part is zero is rendered by the print
formatter exactly as the corresponding integer (no decimal point), and
`PRINT 10 / 2` emits `5`, not `5.0`, although division produces a float. -/
theorem claim_c8_integral_float_rendering :
    (∀ q : PyFloat, pfIsInt q = true →
      pyPrintValue (.vfloat q) = pyPrintValue (.vint (q.num / q.den))) ∧
    (run 60 initState ("10 PRINT 10 / 2".toList)).out = ["5".toList] ∧
    (run 60 initState ("10 PRINT 10 / 2".toList)).err = none := by
  refine ⟨fun q hq => ?_, by decide, by decide⟩
  simp [pyPrintValue, hq]

/-- Witness for C8 at the concrete float produced by `10 / 2`. -/
theorem claim_c8_witness :
    pfIsInt (pfDiv (pfOfInt 10) (pfOfInt 2)) = true ∧
    pyPrintValue (.vfloat (pfDiv (pfOfInt 10) (pfOfInt 2))) =
      pyPrintValue (.vint ((pfDiv (pfOfInt 10) (pfOfInt 2)).num /
        (pfDiv (pfOfInt 10) (pfOfInt 2)).den)) :=
  ⟨by decide, claim_c8_integral_float_rendering.1 _ (by decide)⟩

theorem pySplit1Char_of_contains {sep : Char} : ∀ {s : PyStr}, s.contains sep = true →
    pySplit1Char sep s = [s.take (s.findIdx (fun c => c == sep)),
      s.drop (s.findIdx (fun c => c == sep) + 1)] := by
  intro s
  induction s with
  | nil => intro h; simp [List.contains] at h
  | cons c cs ih =>
    intro h
    by_cases hc : c = sep
    · subst hc
      simp [pySplit1Char, List.findIdx_cons]
    · have hcb : (c == sep) = false := beq_eq_false_iff_ne.mpr hc
      have h' : cs.contains sep = true := by
        simp only [List.contains_cons, Bool.or_eq_true] at h
        rcases h with h | h
        · exact absurd (beq_iff_eq.mp h).symm hc
        · exact h
      simp [pySplit1Char, hcb, List.findIdx_cons, ih h']

/-- C3: a second run on a reused interpreter instance is observationally
equivalent to a run on a brand-new instance attached to the same host input:
`load_program` rebuilds the program and clears the variable environment and
both control stacks, so output, error, and all state components other than
the program counter agree; concretely, after running `10 LET A = 42`,
running `10 PRINT A` on the same instance prints nothing and aborts with an
undefined-variable evaluation error. -/
theorem claim_c3_fresh_state_guarantee :
    (∀ (f : Nat) (st : InterpState) (text : PyStr),
      (run f st text).out = (run f { initState with stdin := st.stdin } text).out ∧
      (run f st text).err = (run f { initState with stdin := st.stdin } text).err ∧
      (run f st text).st.vars = (run f { initState with stdin := st.stdin } text).st.vars ∧
      (run f st text).st.program = (run f { initState with stdin := st.stdin } text).st.program ∧
      (run f st text).st.for_stack =
        (run f { initState with stdin := st.stdin } text).st.for_stack ∧
      (run f st text).st.return_stack =
        (run f { initState with stdin := st.stdin } text).st.return_stack ∧
      (run f st text).st.line_numbers =
        (run f { initState with stdin := st.stdin } text).st.line_numbers) ∧
    (run 60 (run 60 initState ("10 LET A = 42".toList)).st ("10 PRINT A".toList)).out = [] ∧
    (run 60 (run 60 initState ("10 LET A = 42".toList)).st ("10 PRINT A".toList)).err =
      some (("Error at line 10: Error evaluating expression 'A': " ++
        "Cannot evaluate expression: A").toList) := by
  refine ⟨fun f st text => ?_, by decide, by decide⟩
  have h1 : (load_program st text).program.isEmpty = (parseProgram text).isEmpty := rfl
  have h2 : (load_program { initState with stdin := st.stdin } text).program.isEmpty =
      (parseProgram text).isEmpty := rfl
  unfold run execute
  rw [h1, h2]
  by_cases h : (parseProgram text).isEmpty = true
  · rw [if_pos h, if_pos h]
    exact ⟨rfl, rfl, rfl, rfl, rfl, rfl, rfl⟩
  · rw [if_neg h, if_neg h]
    have hstate : ({ load_program st text with program_counter := 0 } : InterpState) =
        { load_program { initState with stdin := st.stdin } text with program_counter := 0 } :=
      rfl
    rw [hstate]
    exact ⟨rfl, rfl, rfl, rfl, rfl, rfl, rfl⟩

/-- C5 counterexample: the claim says the split happens at the first
operator occurrence scanning left to right, but in the condition `A<C>B`
(whose leftmost operator is `<`) the code splits at the `>` because the
operator loop tries `>` first: the code answers true while the claim's
reading answers false. -/
theorem claim_c5_counterexample_priority :
    evaluate_condition
      [("A<C".toList, .vint 5), ("B".toList, .vint 3), ("A".toList, .vint 0),
        ("C>B".toList, .vint 0)] 20 ("A<C>B".toList) = .ok true ∧
    specCondLeftmost
      [("A<C".toList, .vint 5), ("B".toList, .vint 3), ("A".toList, .vint 0),
        ("C>B".toList, .vint 0)] 20 ("A<C>B".toList) = .ok false :=
  ⟨by decide, by decide⟩

/-- C5 amended: the condition is evaluated as a single relational
comparison, but the operators are tried in the fixed order `>`, `<`, `=`,
and the first operator present splits the condition at that operator's first
occurrence (so in a condition containing both `=` and a later `>`, the split
happens at the `>`). -/
theorem claim_c5_amended_priority_order (env : List (PyStr × Value)) (f : Nat) (cond : PyStr) :
    evaluate_condition env f cond = specCondPriority env f cond := by
  unfold evaluate_condition specCondPriority cond_try_op specCompareAt
  by_cases h1 : '>' ∈ pyStrip cond
  · have hc1 : (pyStrip cond).contains '>' = true := by simpa using h1
    simp [h1, pySplit1Char_of_contains hc1]
  · by_cases h2 : '<' ∈ pyStrip cond
    · have hc2 : (pyStrip cond).contains '<' = true := by simpa using h2
      simp [h1, h2, pySplit1Char_of_contains hc2]
    · by_cases h3 : '=' ∈ pyStrip cond
      · have hc3 : (pyStrip cond).contains '=' = true := by simpa using h3
        simp [h1, h2, h3, pySplit1Char_of_contains hc3]
      · simp [h1, h2, h3]

theorem head_nonws_of_headD {w : PyStr} (hh : wsChar (w.headD 'x') = false) :
    ∀ c, w.head? = some c → wsChar c = false := by
  intro c hc
  cases w with
  | nil => simp at hc
  | cons a as =>
    simp only [List.head?] at hc
    injection hc with h
    subst h
    exact hh

theorem last_nonws_of_getLastD {w : PyStr} (hl : wsChar (w.getLastD 'x') = false) :
    ∀ c, w.getLast? = some c → wsChar c = false := by
  intro c hc
  have hd : w.getLastD 'x' = c := by rw [List.getLastD_eq_getLast?, hc]; rfl
  rw [← hd]
  exact hl

theorem pyStrip_ends_eq_self {w : PyStr} (hh : wsChar (w.headD 'x') = false)
    (hl : wsChar (w.getLastD 'x') = false) : pyStrip w = w :=
  pyStrip_eq_self (head_nonws_of_headD hh) (last_nonws_of_getLastD hl)

/-- C6: a `GOTO` whose (parsed) target line number is absent from the line
list raises, for every interpreter state, the error `Undefined line number
<target> in GOTO statement` without touching the state; end to end, the run
loop re-raises it tagged `Error at line 20`, the run stops (the later line
never prints), the output emitted before the jump is exactly `Start`, and
the message contains the words `line number`. -/
theorem claim_c6_goto_undefined_line :
    (∀ (f : Nat) (st : InterpState) (s : PyStr) (t : Int),
      s ≠ [] →
      wsChar (s.headD 'x') = false →
      wsChar (s.getLastD 'x') = false →
      pyParseInt s = some t →
      st.line_numbers.contains t = false →
      execute_statement (f + 1) st ("GOTO ".toList ++ s) =
        ⟨st, [], .error ("Undefined line number ".toList ++ pyReprInt t ++
          " in GOTO statement".toList)⟩) ∧
    (run 60 initState ("10 PRINT \"Start\"\n20 GOTO 999\n30 PRINT \"End\"".toList)).out =
      ["Start".toList] ∧
    (run 60 initState ("10 PRINT \"Start\"\n20 GOTO 999\n30 PRINT \"End\"".toList)).err =
      some ("Error at line 20: Undefined line number 999 in GOTO statement".toList) ∧
    listContains ("line number".toList)
      ("Error at line 20: Undefined line number 999 in GOTO statement".toList) = true := by
  refine ⟨fun f st s t hne hh hl hparse hcont => ?_, by decide, by decide, by decide⟩
  have hG : ("GOTO ".toList ++ s).head? = some 'G' := rfl
  have hlast : ("GOTO ".toList ++ s).getLast? = s.getLast? :=
    List.getLast?_append_of_ne_nil _ hne
  have hss : pyStrip s = s := pyStrip_ends_eq_self hh hl
  have hstrip : pyStrip ("GOTO ".toList ++ s) = "GOTO ".toList ++ s := by
    refine pyStrip_eq_self (fun c hc => ?_) (fun c hc => ?_)
    · rw [hG] at hc
      injection hc with h
      subst h
      rfl
    · exact last_nonws_of_getLastD hl c (by rwa [hlast] at hc)
  have hdisp : execute_statement (f + 1) st ("GOTO ".toList ++ s) =
      execute_goto st ("GOTO ".toList ++ s) := by
    simp only [execute_statement]
    rw [hstrip]
    rfl
  rw [hdisp]
  unfold execute_goto
  have hd : ("GOTO ".toList ++ s).drop 4 = ' ' :: s := rfl
  rw [hd]
  have hsp : pyStrip (' ' :: s) = pyStrip s := rfl
  rw [hsp, hss, hparse]
  have hmem : t ∉ st.line_numbers := by simpa using hcont
  simp [hmem]

/-- Witness for C6 at the concrete statement `GOTO 999` in the initial
state. -/
theorem claim_c6_witness :
    (("999".toList : PyStr) ≠ [] ∧ wsChar (("999".toList : PyStr).headD 'x') = false ∧
      wsChar (("999".toList : PyStr).getLastD 'x') = false ∧
      pyParseInt ("999".toList) = some 999 ∧
      initState.line_numbers.contains 999 = false) ∧
    execute_statement (5 + 1) initState ("GOTO ".toList ++ "999".toList) =
      ⟨initState, [], .error ("Undefined line number ".toList ++ pyReprInt 999 ++
        " in GOTO statement".toList)⟩ :=
  ⟨⟨by decide, by decide, by decide, by decide, by decide⟩,
    claim_c6_goto_undefined_line.1 5 initState ("999".toList) 999 (by decide) (by decide)
      (by decide) (by decide) (by decide)⟩

/-- C7: executing NEXT with an empty loop stack raises `NEXT without FOR`
(for every state and NEXT statement), executing NEXT naming a variable
different from the top frame's variable raises the distinct
`NEXT <v> doesn't match FOR <var>` error, and in both cases the run loop
aborts with the error tagged with the failing line number. -/
theorem claim_c7_next_errors :
    (∀ (f : Nat) (st : InterpState) (w : PyStr),
      w ≠ [] →
      wsChar (w.headD 'x') = false →
      wsChar (w.getLastD 'x') = false →
      st.for_stack = [] →
      execute_statement (f + 1) st ("NEXT ".toList ++ w) =
        ⟨st, [], .error ("NEXT without FOR".toList)⟩) ∧
    (∀ (f : Nat) (st : InterpState) (w : PyStr) (frame : LoopFrame) (rest : List LoopFrame),
      w ≠ [] →
      wsChar (w.headD 'x') = false →
      wsChar (w.getLastD 'x') = false →
      st.for_stack = frame :: rest →
      w ≠ frame.var →
      execute_statement (f + 1) st ("NEXT ".toList ++ w) =
        ⟨st, [], .error ("NEXT ".toList ++ w ++ " doesn't match FOR ".toList ++ frame.var)⟩) ∧
    (run 60 initState ("10 NEXT I".toList)).out = [] ∧
    (run 60 initState ("10 NEXT I".toList)).err =
      some ("Error at line 10: NEXT without FOR".toList) ∧
    (run_loop 20 ⟨[(10, "NEXT J".toList)], [("I".toList, Value.vint 1)], 0, [10],
        [⟨"I".toList, Value.vint 3, Value.vint 1, 10⟩], [], []⟩).err =
      some ("Error at line 10: NEXT J doesn't match FOR I".toList) := by
  have hstrip : ∀ w : PyStr, w ≠ [] → wsChar (w.headD 'x') = false →
      wsChar (w.getLastD 'x') = false →
      pyStrip ("NEXT ".toList ++ w) = "NEXT ".toList ++ w := by
    intro w hne hh hl
    refine pyStrip_eq_self (fun c hc => ?_) (fun c hc => ?_)
    · have hN : ("NEXT ".toList ++ w).head? = some 'N' := rfl
      rw [hN] at hc
      injection hc with h
      subst h
      rfl
    · have hlast : ("NEXT ".toList ++ w).getLast? = w.getLast? :=
        List.getLast?_append_of_ne_nil _ hne
      exact last_nonws_of_getLastD hl c (by rwa [hlast] at hc)
  have hdisp : ∀ (f : Nat) (st : InterpState) (w : PyStr),
      pyStrip ("NEXT ".toList ++ w) = "NEXT ".toList ++ w →
      execute_statement (f + 1) st ("NEXT ".toList ++ w) =
        execute_next st ("NEXT ".toList ++ w) := by
    intro f st w hs
    simp only [execute_statement]
    rw [hs]
    rfl
  refine ⟨fun f st w hne hh hl hfs => ?_, fun f st w frame rest hne hh hl hfs hnev => ?_,
    by decide, by decide, by decide⟩
  · rw [hdisp f st w (hstrip w hne hh hl)]
    unfold execute_next
    rw [hfs]
  · rw [hdisp f st w (hstrip w hne hh hl)]
    unfold execute_next
    rw [hfs]
    have hlen : 4 < ("NEXT ".toList ++ w).length := by
      rw [List.length_append]
      have h5 : ("NEXT ".toList : PyStr).length = 5 := rfl
      omega
    rw [if_pos hlen]
    have hd : ("NEXT ".toList ++ w).drop 4 = ' ' :: w := rfl
    rw [hd]
    have hsp : pyStrip (' ' :: w) = pyStrip w := rfl
    rw [hsp, pyStrip_ends_eq_self hh hl]
    exact if_pos ⟨hne, hnev⟩

/-- Witness for C7: a NEXT naming `J` against an open loop on `I`. -/
theorem claim_c7_witness :
    (("J".toList : PyStr) ≠ [] ∧ wsChar (("J".toList : PyStr).headD 'x') = false ∧
      wsChar (("J".toList : PyStr).getLastD 'x') = false ∧
      (⟨[], [("I".toList, Value.vint 1)], 0, [],
        [⟨"I".toList, Value.vint 3, Value.vint 1, 10⟩], [], []⟩ : InterpState).for_stack =
        (⟨"I".toList, Value.vint 3, Value.vint 1, 10⟩ : LoopFrame) :: [] ∧
      ("J".toList : PyStr) ≠ (⟨"I".toList, Value.vint 3, Value.vint 1, 10⟩ : LoopFrame).var) ∧
    execute_statement (5 + 1)
      ⟨[], [("I".toList, Value.vint 1)], 0, [],
        [⟨"I".toList, Value.vint 3, Value.vint 1, 10⟩], [], []⟩
      ("NEXT ".toList ++ "J".toList) =
      ⟨⟨[], [("I".toList, Value.vint 1)], 0, [],
          [⟨"I".toList, Value.vint 3, Value.vint 1, 10⟩], [], []⟩, [],
        .error ("NEXT ".toList ++ "J".toList ++ " doesn't match FOR ".toList ++
          (⟨"I".toList, Value.vint 3, Value.vint 1, 10⟩ : LoopFrame).var)⟩ :=
  ⟨⟨by decide, by decide, by decide, rfl, by decide⟩,
    claim_c7_next_errors.2.1 5 _ ("J".toList) ⟨"I".toList, Value.vint 3, Value.vint 1, 10⟩ []
      (by decide) (by decide) (by decide) rfl (by decide)⟩

theorem parse_print_parts_aux_quoted : ∀ {s : PyStr}, s.contains '"' = false →
    ∀ (t cur : PyStr) (parts : List PyStr),
      parse_print_parts_aux (s ++ t) cur true parts =
        parse_print_parts_aux t (cur ++ s) true parts := by
  intro s
  induction s with
  | nil => intro _ t cur parts; simp
  | cons c cs ih =>
    intro h t cur parts
    rw [List.contains_cons, Bool.or_eq_false_iff] at h
    have hc : (c == '"') = false :=
      beq_eq_false_iff_ne.mpr (Ne.symm (beq_eq_false_iff_ne.mp h.1))
    have h' : cs.contains '"' = false := h.2
    simp only [List.cons_append, parse_print_parts_aux, hc, Bool.not_true, Bool.and_false,
      Bool.false_eq_true, if_false, List.append_eq]
    rw [ih h' t (cur ++ [c]) parts]
    simp [List.append_assoc]

/-- C9: a semicolon inside a quoted string literal is never treated as an
argument separator — for every quote-free content `s`, `PRINT "<s>"` emits
exactly `s` (semicolons included, literally); and segments split on
semicolons outside quotes are joined with a single space, as in
`PRINT "A; B"; 7` emitting `A; B 7`. -/
theorem claim_c9_semicolon_inside_quotes :
    (∀ (f : Nat) (st : InterpState) (s : PyStr),
      s.contains '"' = false →
      execute_statement (f + 1) st ("PRINT \"".toList ++ s ++ "\"".toList) =
        ⟨st, [s], .ok true⟩) ∧
    (run 60 initState ("10 PRINT \"A; B\"; 7".toList)).out = ["A; B 7".toList] ∧
    (run 60 initState ("10 PRINT \"A; B\"; 7".toList)).err = none := by
  refine ⟨fun f st s hq => ?_, by decide, by decide⟩
  have hgl : ('"' :: (s ++ "\"".toList)).getLast? = some '"' := by
    rw [show ('"' :: (s ++ "\"".toList)) = ('"' :: s) ++ "\"".toList by simp,
      List.getLast?_append_of_ne_nil _ (by simp)]
    rfl
  have hstripX : pyStrip ('"' :: (s ++ "\"".toList)) = '"' :: (s ++ "\"".toList) := by
    refine pyStrip_eq_self (fun c hc => ?_) (fun c hc => ?_)
    · injection hc with hcc
      subst hcc
      rfl
    · rw [hgl] at hc
      injection hc with hcc
      subst hcc
      rfl
  have hlaststmt : (("PRINT \"".toList ++ s) ++ "\"".toList).getLast? = some '"' := by
    rw [List.getLast?_append_of_ne_nil _ (by simp)]
    rfl
  have hstrip : pyStrip (("PRINT \"".toList ++ s) ++ "\"".toList) =
      ("PRINT \"".toList ++ s) ++ "\"".toList := by
    refine pyStrip_eq_self (fun c hc => ?_) (fun c hc => ?_)
    · rw [show ((("PRINT \"".toList ++ s) ++ "\"".toList).head? : Option Char) = some 'P'
        from rfl] at hc
      injection hc with hcc
      subst hcc
      rfl
    · rw [hlaststmt] at hc
      injection hc with hcc
      subst hcc
      rfl
  have hdisp : execute_statement (f + 1) st (("PRINT \"".toList ++ s) ++ "\"".toList) =
      execute_print f st (("PRINT \"".toList ++ s) ++ "\"".toList) := by
    simp only [execute_statement]
    rw [hstrip]
    rfl
  have hX : parse_print_parts ('"' :: (s ++ "\"".toList)) = ['"' :: (s ++ "\"".toList)] := by
    show parse_print_parts_aux ('"' :: (s ++ "\"".toList)) [] false [] = _
    rw [show parse_print_parts_aux ('"' :: (s ++ "\"".toList)) [] false [] =
        parse_print_parts_aux (s ++ "\"".toList) ['"'] true [] from rfl]
    rw [parse_print_parts_aux_quoted hq]
    rw [show parse_print_parts_aux ("\"".toList) (['"'] ++ s) true [] =
        parse_print_parts_aux [] ((['"'] ++ s) ++ ['"']) false [] from rfl]
    rw [show ((['"'] ++ s) ++ ['"'] : PyStr) = '"' :: (s ++ "\"".toList) by simp]
    simp only [parse_print_parts_aux, hstripX]
    rfl
  have hppv : print_parts_values st.vars f ['"' :: (s ++ "\"".toList)] = .ok [s] := by
    simp only [print_parts_values, hstripX]
    rw [show (('"' :: (s ++ "\"".toList) : PyStr) == [';']) = false from rfl]
    rw [show isQuoted ('"' :: (s ++ "\"".toList)) = ('"' == '"' &&
      (('"' :: (s ++ "\"".toList)).getLast? == some '"')) from rfl]
    rw [hgl]
    rw [if_neg (by decide), if_pos (by decide)]
    rw [show stripQuotes ('"' :: (s ++ "\"".toList)) = (s ++ "\"".toList).dropLast from rfl]
    rw [show ("\"".toList : PyStr) = ['"'] from rfl]
    rw [List.dropLast_concat]
  rw [hdisp]
  unfold execute_print
  rw [show ((("PRINT \"".toList ++ s) ++ "\"".toList).drop 5 : PyStr) =
    ' ' :: '"' :: (s ++ "\"".toList) from rfl]
  rw [show pyStrip (' ' :: '"' :: (s ++ "\"".toList)) = pyStrip ('"' :: (s ++ "\"".toList))
    from rfl]
  rw [hstripX]
  simp only [hX, hppv, List.isEmpty_cons, Bool.false_eq_true, if_false]
  rw [show joinSpace [s] = s by simp [joinSpace, List.intercalate]]

/-- Witness for C9 with the quote-free content `x;y`. -/
theorem claim_c9_witness :
    ("x;y".toList : PyStr).contains '"' = false ∧
    execute_statement (5 + 1) initState ("PRINT \"".toList ++ "x;y".toList ++ "\"".toList) =
      ⟨initState, ["x;y".toList], .ok true⟩ :=
  ⟨by decide, claim_c9_semicolon_inside_quotes.1 5 initState ("x;y".toList) (by decide)⟩

/-- C10: when a NEXT is executed with the loop variable at `c ≤ e` and a
positive step `k` overshooting the end bound (`e < c + k`), the frame is
popped, the loop variable stays bound to the first out-of-bounds value
`c + k` (which overshoots the bound by at most one step:
`e < c + k ≤ e + k`), and a subsequent expression lookup of the variable
observes that value; it is neither unbound nor reset to the end bound. -/
theorem claim_c10_loop_var_overshoot : ∀ (f : Nat) (st : InterpState) (v : PyStr)
    (c k e : Int) (rest : List LoopFrame) (line : Int),
    st.for_stack = ⟨v, .vint e, .vint k, line⟩ :: rest →
    lookupVar v st.vars = some (.vint c) →
    0 < k → c ≤ e → e < c + k →
    v ≠ [] → wsChar (v.headD 'x') = false → wsChar (v.getLastD 'x') = false →
    isQuoted v = false →
    execute_statement (f + 1) st ("NEXT ".toList ++ v) =
      ⟨{ st with vars := setVar v (.vint (c + k)) st.vars, for_stack := rest }, [],
        .ok true⟩ ∧
    lookupVar v (setVar v (.vint (c + k)) st.vars) = some (.vint (c + k)) ∧
    evaluate_expression (setVar v (.vint (c + k)) st.vars) (f + 1) v = .ok (.vint (c + k)) ∧
    e < c + k ∧ c + k ≤ e + k := by
  intro f st v c k e rest line hfs hv hk hce hover hne hh hl hq
  have hsv : pyStrip v = v := pyStrip_ends_eq_self hh hl
  refine ⟨?_, lookupVar_setVar_self v _ st.vars, ?_, hover, by omega⟩
  · have hstrip2 : pyStrip ("NEXT ".toList ++ v) = "NEXT ".toList ++ v := by
      refine pyStrip_eq_self (fun ch hc => ?_) (fun ch hc => ?_)
      · rw [show (("NEXT ".toList ++ v).head? : Option Char) = some 'N' from rfl] at hc
        injection hc with h
        subst h
        rfl
      · rw [List.getLast?_append_of_ne_nil _ hne] at hc
        exact last_nonws_of_getLastD hl ch hc
    have hdisp : execute_statement (f + 1) st ("NEXT ".toList ++ v) =
        execute_next st ("NEXT ".toList ++ v) := by
      simp only [execute_statement]
      rw [hstrip2]
      rfl
    rw [hdisp]
    obtain ⟨prog, vars0, pc0, lns0, fstack0, rstack0, stdin0⟩ := st
    have hfs' : fstack0 = ⟨v, .vint e, .vint k, line⟩ :: rest := hfs
    subst hfs'
    have hv' : lookupVar v vars0 = some (.vint c) := hv
    have hlen : 4 < ("NEXT ".toList ++ v).length := by
      rw [List.length_append]
      have h5 : ("NEXT ".toList : PyStr).length = 5 := rfl
      omega
    have h1 : decide (0 < k) = true := decide_eq_true hk
    have h2 : decide (c + k ≤ e) = false := decide_eq_false (by omega)
    have h3 : decide (k < 0) = false := decide_eq_false (by omega)
    simp only [execute_next, loopContinue, loopContinueNeg, pyGt, pyLe, pyLt, pyAdd]
    rw [if_pos hlen]
    rw [show (("NEXT ".toList ++ v).drop 4 : PyStr) = ' ' :: v from rfl]
    rw [show pyStrip (' ' :: v) = pyStrip v from rfl, hsv]
    rw [if_neg (fun hcon => hcon.2 rfl)]
    rw [hv']
    simp only [h1, h2, h3, Bool.false_eq_true, if_false, if_true]
  · simp only [evaluate_expression, hsv, hq, Bool.false_eq_true, if_false,
      lookupVar_setVar_self]

/-- Witness for C10: `NEXT I` with `I = 3` in a `1 TO 3` step-1 frame pops
the loop and leaves `I` bound to 4. -/
theorem claim_c10_witness :
    ((⟨[], [("I".toList, Value.vint 3)], 0, [],
        [⟨"I".toList, Value.vint 3, Value.vint 1, 10⟩], [], []⟩ : InterpState).for_stack =
      (⟨"I".toList, Value.vint 3, Value.vint 1, 10⟩ : LoopFrame) :: [] ∧
      lookupVar ("I".toList)
        (⟨[], [("I".toList, Value.vint 3)], 0, [],
          [⟨"I".toList, Value.vint 3, Value.vint 1, 10⟩], [], []⟩ : InterpState).vars =
        some (Value.vint 3) ∧
      (0 : Int) < 1 ∧ (3 : Int) ≤ 3 ∧ (3 : Int) < 3 + 1 ∧
      ("I".toList : PyStr) ≠ [] ∧ wsChar (("I".toList : PyStr).headD 'x') = false ∧
      wsChar (("I".toList : PyStr).getLastD 'x') = false ∧
      isQuoted ("I".toList) = false) ∧
    (execute_statement (5 + 1)
        ⟨[], [("I".toList, Value.vint 3)], 0, [],
          [⟨"I".toList, Value.vint 3, Value.vint 1, 10⟩], [], []⟩
        ("NEXT ".toList ++ "I".toList) =
      ⟨⟨[], setVar ("I".toList) (Value.vint (3 + 1)) [("I".toList, Value.vint 3)], 0, [], [],
          [], []⟩, [], .ok true⟩ ∧
      lookupVar ("I".toList)
        (setVar ("I".toList) (Value.vint (3 + 1)) [("I".toList, Value.vint 3)]) =
        some (Value.vint (3 + 1)) ∧
      evaluate_expression
        (setVar ("I".toList) (Value.vint (3 + 1)) [("I".toList, Value.vint 3)]) (5 + 1)
        ("I".toList) = .ok (Value.vint (3 + 1)) ∧
      (3 : Int) < 3 + 1 ∧ (3 : Int) + 1 ≤ 3 + 1) :=
  ⟨⟨rfl, by decide, by decide, by decide, by decide, by decide, by decide, by decide,
      by decide⟩,
    claim_c10_loop_var_overshoot 5 _ ("I".toList) 3 1 3 [] 10 rfl (by decide) (by decide)
      (by decide) (by decide) (by decide) (by decide) (by decide) (by decide)⟩
